import Mathlib

/-!
Verification development for the retrieval-augmented answering engine of the
RAG chatbot backend (FastAPI service plus ETL utilities).

The Python sources are embedded shallowly:

* pure functions become Lean functions;
* Python dictionaries become association lists or dedicated structures;
* machine floats that only feed comparisons (the lexical retrieval score
  `overlap / sqrt(len(doc_tokens))`) are embedded exactly, via cross
  multiplication of squares, and related to the real-valued formula through
  `Real.sqrt` in the theorems;
* fallible constructors become `Except`;
* external collaborators (the langchain text splitter, the weaviate client,
  the OpenAI chat model, the free-text catalog lookup, the random UUID
  source) are function or data parameters.

Python truthiness on optional strings (`if v:`) is `pyTruthy`; `a or b` on
optional strings is `pyOrStr`.  Python `str.lower` is embedded for the ASCII
fragment by `lowerStr`, which is exact for the ASCII-only regular expression
`[A-Za-z0-9]+` used by tokenization and for the catalog's ASCII data.
-/

/-! ## Python-semantics helpers -/

/-- Truthiness of an optional string: `None` and the empty string are falsy. -/
def pyTruthy (v : Option String) : Bool :=
  match v with
  | none => false
  | some s => s != ""

/-- Python `a or b` on optional strings: yields `b` whenever `a` is falsy. -/
def pyOrStr (a b : Option String) : Option String :=
  if pyTruthy a then a else b

/-- The string carried by an optional value (`""` for `None`). -/
def strVal (v : Option String) : String := v.getD ""

/-- ASCII lowercase of one character (embeds `str.lower` on ASCII data). -/
def lowerChar (c : Char) : Char := c.toLower

/-- ASCII lowercase of a string (embeds `str.lower` on ASCII data). -/
def lowerStr (s : String) : String := String.mk (s.data.map lowerChar)

/-- Decimal digit character. -/
def digitChar (n : Nat) : Char := Char.ofNat (48 + n)

/-- Fuel-driven decimal rendering (structural recursion so that the kernel
can evaluate it). -/
def natToStrAux (fuel n : Nat) : List Char :=
  match fuel with
  | 0 => []
  | f + 1 => if n < 10 then [digitChar n] else natToStrAux f (n / 10) ++ [digitChar (n % 10)]

/-- Decimal rendering of a natural number, embedding Python `str(n)` and
f-string interpolation of integers. -/
def natToStr (n : Nat) : String := String.mk (natToStrAux (n + 1) n)

/-- Substring test on character lists (embeds Python `needle in hay`). -/
def listContainsSub (needle : List Char) : List Char → Bool
  | [] => needle.isEmpty
  | c :: rest => needle.isPrefixOf (c :: rest) || listContainsSub needle rest

/-- Substring test on strings (embeds Python `needle in hay`). -/
def strContainsSub (hay needle : String) : Bool := listContainsSub needle.data hay.data

/-- Strip all trailing slash characters (embeds Python `s.rstrip("/")`). -/
def rstripSlashes (s : String) : String :=
  String.mk (s.data.reverse.dropWhile (fun c => c == '/')).reverse

/-! ## A stable sort

Python `list.sort(key=..., reverse=True)` is a stable sort.  The scored
tuples sorted by `InMemoryVectorStore.query` carry pairwise distinct
insertion indices, so the stable descending-by-score order coincides with
the unique order induced by the total comparison "higher score first, equal
scores broken by lower insertion index first".  We embed the sort as an
insertion sort over such a comparison; for a total transitive comparison
any comparison-sorting algorithm produces this same sequence. -/

/-- Insert an element into a list, before the first element it may precede. -/
def insertLE {α : Type} (le : α → α → Bool) (x : α) : List α → List α
  | [] => [x]
  | y :: ys => if le x y then x :: y :: ys else y :: insertLE le x ys

/-- Insertion sort by a boolean comparison. -/
def sortLE {α : Type} (le : α → α → Bool) : List α → List α
  | [] => []
  | x :: xs => insertLE le x (sortLE le xs)

/-! ## src/backend/app/services/vectorstore.py — `InMemoryVectorStore`

The fallback store keeps an ordered list of upserted documents; each input
document is a dict with an optional `text` entry plus arbitrary further
metadata (opaque to retrieval, kept as string pairs). -/

/-- A document held by the in-memory store: the `text` value (absent or
`None` modelled as `none`) plus the remaining metadata entries. -/
structure StoreDoc where
  text : Option String := none
  meta : List (String × String) := []
deriving DecidableEq

/-- The in-memory lexical store: the ordered list of stored documents. -/
structure InMemoryVectorStore where
  documents : List StoreDoc := []
deriving DecidableEq

/-- Character class of the regular expression `[A-Za-z0-9]+`. -/
def isAsciiAlnum (c : Char) : Bool := c.isAlpha || c.isDigit

/-- Maximal alphanumeric runs of a character list (`re.findall` of
`[A-Za-z0-9]+`); `cur` is the reversed run currently being read. -/
def alnumRunsAux : List Char → List Char → List String
  | [], cur => if cur.isEmpty then [] else [String.mk cur.reverse]
  | c :: cs, cur =>
    if isAsciiAlnum c then alnumRunsAux cs (c :: cur)
    else if cur.isEmpty then alnumRunsAux cs [] else String.mk cur.reverse :: alnumRunsAux cs []

/-- `InMemoryVectorStore._tokenize`: the set of case-folded alphanumeric
runs of the text. -/
def InMemoryVectorStore.tokenize (text : String) : Finset String :=
  (alnumRunsAux (lowerStr text).data []).toFinset

/-- `InMemoryVectorStore.upsert_documents`: append every document whose
`text` is truthy, returning the new store and the count stored. -/
def InMemoryVectorStore.upsert_documents (store : InMemoryVectorStore) (docs : List StoreDoc) :
    InMemoryVectorStore × Nat :=
  docs.foldl
    (fun acc doc =>
      if pyTruthy doc.text then (⟨acc.1.documents ++ [doc]⟩, acc.2 + 1) else acc)
    (store, 0)

/-- One scored candidate inside `query`: the tuple `(score, idx, doc)` of the
source, with the float score `overlap / sqrt(ntokens)` represented exactly by
its numerator `overlap` and the token count `ntokens`. -/
structure ScoredDoc where
  overlap : Nat
  ntokens : Nat
  idx : Nat
  doc : StoreDoc
deriving DecidableEq

/-- One result of `query`: the dict with keys `id`, `score` and `payload`;
the float score is again represented by the pair `overlap`, `ntokens`. -/
structure QueryHit where
  id : String
  overlap : Nat
  ntokens : Nat
  payload : StoreDoc
deriving DecidableEq

/-- The comparison realising Python's stable descending sort on the scored
tuples: strictly higher score first (`o₁/√n₁ > o₂/√n₂` iff `o₁²·n₂ > o₂²·n₁`
for positive token counts), equal scores broken by insertion index. -/
def scoredLE (a b : ScoredDoc) : Bool :=
  decide (b.overlap ^ 2 * a.ntokens < a.overlap ^ 2 * b.ntokens) ||
    (decide (a.overlap ^ 2 * b.ntokens = b.overlap ^ 2 * a.ntokens) && decide (a.idx ≤ b.idx))

/-- Result formatting inside `query`: the dict
`{"id": f"inmemory-{idx}", "score": score, "payload": doc}`. -/
def mkQueryHit (e : ScoredDoc) : QueryHit :=
  ⟨"inmemory-" ++ natToStr e.idx, e.overlap, e.ntokens, e.doc⟩

/-- `InMemoryVectorStore.query`, embedded clause by clause from the source:
empty-query guard, empty-token guard, the scoring loop over the enumerated
documents (skipping token-free documents and zero-overlap documents), the
stable descending sort, the truncation to `top_k` and the result dicts. -/
def InMemoryVectorStore.query (store : InMemoryVectorStore) (q : String) (top_k : Nat) :
    List QueryHit :=
  if q = "" then []
  else
    let queryTokens := InMemoryVectorStore.tokenize q
    if queryTokens = ∅ then []
    else
      let scored := store.documents.enum.filterMap
        (fun p =>
          let docTokens := InMemoryVectorStore.tokenize (p.2.text.getD "")
          if docTokens = ∅ then none
          else
            let overlap := (queryTokens ∩ docTokens).card
            if overlap = 0 then none
            else some (ScoredDoc.mk overlap docTokens.card p.1 p.2))
      ((sortLE scoredLE scored).take top_k).map mkQueryHit

/-- The specification of the lexical query (spec section 4.2, steps 1 to 5,
written from the spec's words): return nothing for an empty query or an
empty store; keep exactly the candidates with non-empty token overlap;
score them; sort descending by score, ties in insertion order; truncate to
`top_k`. -/
def lexicalQuerySpec (store : InMemoryVectorStore) (q : String) (top_k : Nat) :
    List QueryHit :=
  if q = "" ∨ store.documents = [] then []
  else
    let qt := InMemoryVectorStore.tokenize q
    let candidates := store.documents.enum.filter
      (fun p => decide ((qt ∩ InMemoryVectorStore.tokenize (p.2.text.getD "")).Nonempty))
    let scored := candidates.map
      (fun p =>
        ScoredDoc.mk ((qt ∩ InMemoryVectorStore.tokenize (p.2.text.getD "")).card)
          (InMemoryVectorStore.tokenize (p.2.text.getD "")).card p.1 p.2)
    ((sortLE scoredLE scored).take top_k).map mkQueryHit

/-! ## src/backend/app/services/products.py -/

/-- `Product`: the pydantic model of one catalog entry (the float `price`
is embedded as a rational). -/
structure Product where
  product_id : String
  name : String
  brand : String
  category : String
  materials : String
  description : String
  care : String
  price : ℚ
  sizes : List String := []
  color : Option String := none
  tags : List String := []
deriving DecidableEq

/-- `ProductCatalog`: the loaded product list, in file order. -/
structure ProductCatalog where
  products : List Product
deriving DecidableEq

/-- The lookup loop of `ProductCatalog.get` (first product whose lowered id
equals the lowered argument). -/
def ProductCatalog.getAux (pidLower : String) : List Product → Option Product
  | [] => none
  | p :: ps =>
    if lowerStr p.product_id == pidLower then some p else ProductCatalog.getAux pidLower ps

/-- `ProductCatalog.get`: case-insensitive lookup by product id. -/
def ProductCatalog.get (cat : ProductCatalog) (product_id : String) : Option Product :=
  ProductCatalog.getAux (lowerStr product_id) cat.products

/-- `ProductCatalog.search`: the five optional filters applied in sequence,
each guarded by Python truthiness of its argument, exactly as the chained
list comprehensions of the source. -/
def ProductCatalog.search (cat : ProductCatalog)
    (brand category tag size query : Option String) : List Product :=
  let c0 := cat.products
  let c1 := if pyTruthy brand then
      c0.filter (fun p => lowerStr p.brand == lowerStr (strVal brand)) else c0
  let c2 := if pyTruthy category then
      c1.filter (fun p => lowerStr p.category == lowerStr (strVal category)) else c1
  let c3 := if pyTruthy tag then
      c2.filter (fun p => p.tags.any (fun t => lowerStr t == lowerStr (strVal tag))) else c2
  let c4 := if pyTruthy size then
      c3.filter (fun p => p.sizes.any (fun s => lowerStr s == lowerStr (strVal size))) else c3
  let c5 := if pyTruthy query then
      c4.filter (fun p =>
        strContainsSub (lowerStr p.name) (lowerStr (strVal query))
          || strContainsSub (lowerStr p.description) (lowerStr (strVal query))
          || strContainsSub (lowerStr p.materials) (lowerStr (strVal query))
          || strContainsSub (lowerStr p.care) (lowerStr (strVal query))
          || strContainsSub (lowerStr p.brand) (lowerStr (strVal query))) else c4
  c5

/-! ## src/backend/app/services/rag.py — context construction -/

/-- `ContextItem`: the TypedDict returned to callers and to the LLM.  The
`metadata` entry (caller-facing, never read by retrieval or synthesis, and
excluded from every property below) is not carried.  The `type` key is
always set by both constructors of the pipeline. -/
structure ContextItem where
  type : String
  id : Option String := none
  title : Option String := none
  text : String := ""
  score : Option ℚ := none
  source : Option String := none
deriving DecidableEq

/-- One payload returned by the vector store to `retrieve`: the `id` and
`score` entries of the hit plus the fields of its `payload` dict that
`_format_document_payloads` reads (`title`, `doc_id`, `text`; `none` models
an absent key or `None`). -/
structure RetrievalPayload where
  id : Option String := none
  score : Option ℚ := none
  title : Option String := none
  doc_id : Option String := none
  text : Option String := none
deriving DecidableEq

/-- The body of `RAGPipeline._format_document_payloads` for one payload. -/
def formatDocumentPayload (p : RetrievalPayload) : ContextItem :=
  { type := "document"
    id := p.id
    title := pyOrStr p.title p.doc_id
    text := p.text.getD ""
    score := p.score
    source := some "vector_store" }

/-- `RAGPipeline._format_document_payloads`. -/
def RAGPipeline.format_document_payloads (payloads : List RetrievalPayload) : List ContextItem :=
  payloads.map formatDocumentPayload

/-- `RAGPipeline._format_product_summary`. -/
def RAGPipeline.format_product_summary (p : Product) : String :=
  "Brand: " ++ p.brand ++ "\n" ++
  "Category: " ++ p.category ++ "\n" ++
  "Materials: " ++ p.materials ++ "\n" ++
  "Care: " ++ p.care ++ "\n" ++
  "Sizes: " ++ (if p.sizes.isEmpty then "N/A" else String.intercalate ", " p.sizes) ++ "\n" ++
  "Tags: " ++ (if p.tags.isEmpty then "None" else String.intercalate ", " p.tags)

/-- The product-type `ContextItem` built for one catalog match. -/
def productContextItem (p : Product) : ContextItem :=
  { type := "product"
    id := some p.product_id
    title := some p.name
    text := RAGPipeline.format_product_summary p
    score := none
    source := some "product_catalog" }

/-- The `product_filters` mapping of a query: the four keys the API layer
passes (`brand`, `category`, `tag`, `size`), each possibly `None`. -/
structure ProductFilters where
  brand : Option String := none
  category : Option String := none
  tag : Option String := none
  size : Option String := none
deriving DecidableEq

/-- Whether the dict comprehension `{k: v for k, v in filters.items() if v}`
is non-empty: some filter value is truthy. -/
def ProductFilters.hasTruthy (pf : ProductFilters) : Bool :=
  pyTruthy pf.brand || pyTruthy pf.category || pyTruthy pf.tag || pyTruthy pf.size

/-- A value surviving the truthiness comprehension (falsy values are dropped
from the keyword arguments of `search`, i.e. stay at their `None` default). -/
def keepTruthy (v : Option String) : Option String :=
  if pyTruthy v then v else none

/-- The outcome of `RAGPipeline._build_product_context`, instrumented with
which of the two catalog lookups executed: `usedFilterSearch` records that
`catalog.search(**filters)` ran, `usedTextLookup` that
`catalog.lookup_from_text(query)` ran. -/
structure ProductContextResult where
  usedFilterSearch : Bool
  usedTextLookup : Bool
  items : List ContextItem
deriving DecidableEq

/-- `RAGPipeline._build_product_context`.  The catalog is `none` when
construction caught `ProductCatalogError`.  `lookup_from_text` is the
free-text catalog lookup; the repository only calls it (spec section 6
requires the collaborator `lookupFromText(text) -> sequence of Product`),
so it is an abstract function parameter here. -/
def RAGPipeline.build_product_context (catalog : Option ProductCatalog)
    (lookup_from_text : ProductCatalog → String → List Product)
    (query : String) (product_filters : Option ProductFilters) : ProductContextResult :=
  match catalog with
  | none => ⟨false, false, []⟩
  | some cat =>
    let pf := product_filters.getD {}
    let hasFilters := pf.hasTruthy
    let searchMatches :=
      if hasFilters then
        cat.search (keepTruthy pf.brand) (keepTruthy pf.category)
          (keepTruthy pf.tag) (keepTruthy pf.size) none
      else []
    let matchList := if searchMatches.isEmpty then lookup_from_text cat query else searchMatches
    ⟨hasFilters, searchMatches.isEmpty, (matchList.take 3).map productContextItem⟩

/-- `RAGPipeline.retrieve`: vector-store hits formatted as document items,
followed by the product context.  The vector store is duck-typed in the
source (`self._vector_store.query`), so it enters as the function
`storeQuery`. -/
def RAGPipeline.retrieve (storeQuery : String → Nat → List RetrievalPayload)
    (catalog : Option ProductCatalog)
    (lookup_from_text : ProductCatalog → String → List Product)
    (query : String) (top_k : Nat) (product_filters : Option ProductFilters) :
    List ContextItem :=
  RAGPipeline.format_document_payloads (storeQuery query top_k) ++
    (RAGPipeline.build_product_context catalog lookup_from_text query product_filters).items

/-! ## src/backend/app/services/rag.py — answer generation -/

/-- The sentinel answer returned when no supporting information exists. -/
def RAGPipeline.sentinelAnswer : String :=
  "I could not find supporting information for that question."

/-- The fixed preamble of the extractive fallback (the source appends the
preview right after the two newlines of the f-string). -/
def RAGPipeline.fallbackPreamble : String :=
  "I'm operating without an LLM backend right now, but here is the most relevant information I found:\n\n"

/-- The title-or-type of an item as read by `_render_prompt_context`
(`item.get("title") or item.get("type", "Context")`; the `type` key is
always present on items built by this pipeline). -/
def titleOrType (item : ContextItem) : String :=
  match item.title with
  | some t => if t = "" then item.type else t
  | none => item.type

/-- The segment-collecting loop of `_render_prompt_context`: skip items with
empty text, otherwise emit the block `title-or-type ++ ":\n" ++ text`. -/
def renderSegments : List ContextItem → List String
  | [] => []
  | item :: rest =>
    if item.text = "" then renderSegments rest
    else (titleOrType item ++ ":\n" ++ item.text) :: renderSegments rest

/-- `RAGPipeline._render_prompt_context`: the segments joined by a blank
line. -/
def RAGPipeline.render_prompt_context (context_docs : List ContextItem) : String :=
  String.intercalate "\n\n" (renderSegments context_docs)

/-- `RAGPipeline._fallback_answer`: the truthy snippet texts; the sentinel
when there are none, else the preamble plus the first two snippets joined by
a blank line. -/
def RAGPipeline.fallback_answer (context_docs : List ContextItem) : String :=
  let snippets := (context_docs.filter (fun i => i.text != "")).map (fun i => i.text)
  if snippets.isEmpty then RAGPipeline.sentinelAnswer
  else RAGPipeline.fallbackPreamble ++ String.intercalate "\n\n" (snippets.take 2)

/-- `RAGPipeline.generate_answer`.  `langchainAvailable` models the
shared import guard (`ChatOpenAI is None or self._prompt_template is None`),
`openai_api_key` the configured credential (`not self._openai_api_key` is
Python truthiness), and `llm` the external chat-model invocation
(`(prompt | llm).invoke`), which is a network call. -/
def RAGPipeline.generate_answer (langchainAvailable : Bool) (openai_api_key : Option String)
    (llm : String → String → String) (question : String) (context_docs : List ContextItem) :
    String :=
  let context_text := RAGPipeline.render_prompt_context context_docs
  if context_text = "" then RAGPipeline.sentinelAnswer
  else if !langchainAvailable || !pyTruthy openai_api_key then
    RAGPipeline.fallback_answer context_docs
  else llm question context_text

/-! ## src/backend/app/services/observability.py -/

/-- `TraceHandle`. -/
structure TraceHandle where
  trace_id : Option String
  trace_url : Option String
deriving DecidableEq

/-- Hexadecimal digit character (lowercase, as Python `format(n, "x")`). -/
def hexDigitChar (n : Nat) : Char :=
  if n < 10 then Char.ofNat (48 + n) else Char.ofNat (87 + n)

/-- `w` hexadecimal digits of `n`, least significant first. -/
def hexCharsLE : Nat → Nat → List Char
  | 0, _ => []
  | w + 1, n => hexDigitChar (n % 16) :: hexCharsLE w (n / 16)

/-- `n` rendered as exactly `w` zero-padded lowercase hex digits (Python
`format(n, "032x")` for `w = 32` and `n < 16^32`). -/
def toPaddedHex (w n : Nat) : String := String.mk (hexCharsLE w n).reverse

/-- Python `uuid.uuid4().hex`, modelled as the 32-digit lowercase hex
rendering of an externally supplied random 128-bit value. -/
def uuid4Hex (rand : Nat) : String := toPaddedHex 32 (rand % 2 ^ 128)

/-- The span context of a live backend root span: OpenTelemetry stores the
trace id as an integer, `0` meaning invalid. -/
structure BackendSpanContext where
  raw_trace_id : Nat
deriving DecidableEq

/-- `_extract_trace_id`: `None` for a missing or zero id, else the 32-digit
hex rendering (backend ids are 128-bit). -/
def extractTraceId (ctx : BackendSpanContext) : Option String :=
  if ctx.raw_trace_id = 0 then none else some (toPaddedHex 32 ctx.raw_trace_id)

/-- `_build_trace_url` with the UI base endpoint passed explicitly (the
source reads the module global `_phoenix_ui_base`, falling back to
settings). -/
def buildTraceUrl (uiBase : Option String) (trace_id : String) : Option String :=
  match uiBase with
  | none => none
  | some e => if e = "" then none else some (rstripSlashes e ++ "/traces/" ++ trace_id)

/-- The observable outcome of one `trace_run` block: the value the trace-id
context variable holds while the body runs (reset on exit), and the
`TraceHandle` yielded to the caller.  `tracer = none` is the
no-backend-active case. -/
structure TraceRunModel where
  ambient_trace_id : Option String
  handle : TraceHandle
deriving DecidableEq

/-- `trace_run`: with no tracer, bind and surface the locally generated
fallback id; with a tracer, bind and surface the id extracted from the root
span's context, or the fallback when extraction yields a falsy value. -/
def trace_run (tracer : Option BackendSpanContext) (uiBase : Option String) (rand : Nat) :
    TraceRunModel :=
  let fallback := uuid4Hex rand
  match tracer with
  | none => ⟨some fallback, ⟨some fallback, buildTraceUrl uiBase fallback⟩⟩
  | some rootCtx =>
    let tid := (pyOrStr (extractTraceId rootCtx) (some fallback)).getD fallback
    ⟨some tid, ⟨some tid, buildTraceUrl uiBase tid⟩⟩

/-- The trace id a `span` call observes and tags:
`span_attributes.get("trace_id") or _trace_id_var.get()`.  Nested spans do
not modify the context variable, so `ambient` is the id bound by the
enclosing `trace_run` at any nesting depth. -/
def spanObservedTraceId (explicitAttr ambient : Option String) : Option String :=
  pyOrStr explicitAttr ambient

/-- The process-wide tracing state: the cached tracer handle (opaque), the
cached UI base endpoint, and whether initialization already ran. -/
structure TracerState where
  tracer : Option Nat := none
  ui_base : Option String := none
  attempted : Bool := false
deriving DecidableEq

/-- The external world as seen by one initialization attempt: whether the
phoenix package import succeeded, the normalized endpoint
(`_normalize_endpoint` of the configured endpoint, DNS-dependent), and the
outcomes of `register(...)` and `tracer_provider.get_tracer(...)`. -/
structure InitEnv where
  phoenixInstalled : Bool := true
  normalizedEndpoint : Option String := none
  registerOutcome : Except String Nat := Except.error ""
  getTracerOutcome : Except String Nat := Except.error ""

/-- `_build_collector_endpoint`. -/
def buildCollectorEndpoint (endpoint : Option String) : Option String :=
  match endpoint with
  | none => none
  | some e =>
    if e = "" then none
    else
      let base := rstripSlashes e
      if "/v1/traces".data.isSuffixOf base.data then some base else some (base ++ "/v1/traces")

/-- `_initialize_tracer`.  Returns the updated process state and whether this
call attempted backend registration (reached the `register(...)` call).  The
early guard returns unchanged state when a tracer is cached or a previous
attempt (successful or not) already ran. -/
def initTracer (s : TracerState) (env : InitEnv) : TracerState × Bool :=
  if s.tracer.isSome || s.attempted then (s, false)
  else
    let s1 : TracerState := { s with attempted := true }
    if !env.phoenixInstalled then (s1, false)
    else
      let s2 : TracerState := { s1 with ui_base := env.normalizedEndpoint }
      match buildCollectorEndpoint env.normalizedEndpoint with
      | none => (s2, false)
      | some _ =>
        match env.registerOutcome with
        | Except.error _ => (s2, true)
        | Except.ok _ =>
          match env.getTracerOutcome with
          | Except.error _ => (s2, true)
          | Except.ok t => ({ s2 with tracer := some t }, true)

/-- `is_enabled`: initialize lazily, then report whether a tracer is active;
the state transition and registration flag are surfaced alongside. -/
def is_enabled (s : TracerState) (env : InitEnv) : Bool × (TracerState × Bool) :=
  let r := initTracer s env
  (r.1.tracer.isSome, r)

/-! ## src/backend/app/services/vectorstore.py — `WeaviateVectorStore`
construction, and the pipeline constructor's fallback -/

/-- An exception escaping the embedded constructors: the repository's
`VectorStoreNotAvailable`, or any other exception propagating from the
weaviate client (connection errors, schema errors). -/
inductive PyError where
  | vectorStoreNotAvailable (msg : String)
  | raised (msg : String)
deriving DecidableEq

/-- Outcome of the external call `weaviate.connect_to_custom(...)`. -/
inductive ConnectOutcome where
  | connected
  | failure (msg : String)
deriving DecidableEq

/-- `WeaviateVectorStore.__init__`: raises `VectorStoreNotAvailable` only
when the client library is not importable; the connection call is not
guarded, so its failure propagates as-is.  `ensure_collection` (schema
provisioning) is not called here at all — it runs inside
`upsert_documents`. -/
def WeaviateVectorStore.init (weaviateInstalled : Bool) (connect : ConnectOutcome) :
    Except PyError Unit :=
  if !weaviateInstalled then
    Except.error (PyError.vectorStoreNotAvailable
      "weaviate-client is not installed; install it to use the vector store")
  else
    match connect with
    | ConnectOutcome.connected => Except.ok ()
    | ConnectOutcome.failure msg => Except.error (PyError.raised msg)

/-- The remote store's `upsert_documents` begins with `ensure_collection`;
a schema-provisioning failure there propagates unconverted. -/
def WeaviateVectorStore.upsert_remote (ensureOutcome : Except String Unit) (count : Nat) :
    Except PyError Nat :=
  match ensureOutcome with
  | Except.error msg => Except.error (PyError.raised msg)
  | Except.ok _ => Except.ok count

/-- Which store the constructed pipeline holds. -/
inductive PipelineStore where
  | weaviate
  | inMemory
deriving DecidableEq

/-- The vector-store selection of `RAGPipeline.__init__`: try the remote
store, catch exactly `VectorStoreNotAvailable` and fall back to the
in-memory store; any other exception propagates out of the constructor. -/
def RAGPipeline.init_vector_store (weaviateInstalled : Bool) (connect : ConnectOutcome) :
    Except PyError PipelineStore :=
  match WeaviateVectorStore.init weaviateInstalled connect with
  | Except.ok _ => Except.ok PipelineStore.weaviate
  | Except.error (PyError.vectorStoreNotAvailable _) => Except.ok PipelineStore.inMemory
  | Except.error e => Except.error e

/-! ## src/etl/chunker.py -/

/-- A Python dict value occurring in ETL records: a string or an int. -/
inductive Val where
  | str (s : String)
  | nat (n : Nat)
deriving DecidableEq

/-- A Python dict with string keys, as an association list (keys unique,
insertion-ordered, as in CPython). -/
abbrev PyDict := List (String × Val)

/-- Dict lookup. -/
def dictGet (d : PyDict) (k : String) : Option Val :=
  match d with
  | [] => none
  | (k', v) :: rest => if k' = k then some v else dictGet rest k

/-- Dict update: replace in place when the key exists (CPython keeps the
original key position), else append. -/
def dictSet (d : PyDict) (k : String) (v : Val) : PyDict :=
  match d with
  | [] => [(k, v)]
  | (k', v') :: rest => if k' = k then (k', v) :: rest else (k', v') :: dictSet rest k v

/-- The comprehension `{key: value for key, value in record.items() if key != "text"}`. -/
def dictRemove (d : PyDict) (k : String) : PyDict := d.filter (fun kv => kv.1 != k)

/-- `record.get("text", "")` on a `dict[str, str]` record. -/
def getTextVal (d : PyDict) : String :=
  match dictGet d "text" with
  | some (Val.str s) => s
  | _ => ""

/-- `Chunker.transform`.  `split` is `Chunker.split`, which delegates to the
external langchain `RecursiveCharacterTextSplitter`, so it enters as a
function parameter.  Each record contributes, per split segment, the dict
literal built from the non-text fields, then `"text"` set to the segment,
then `"chunk_index"` set to the segment's 0-based position. -/
def Chunker.transform (split : String → List String) (records : List PyDict) : List PyDict :=
  records.flatMap (fun record =>
    let base := dictRemove record "text"
    ((split (getTextVal record)).enum).map (fun p =>
      dictSet (dictSet base "text" (Val.str p.2)) "chunk_index" (Val.nat p.1)))

/-! ## Supporting lemmas for the lexical query -/

lemma filterMap_eq_map_filter {α β : Type} (f : α → Option β) (p : α → Bool) (g : α → β)
    (h : ∀ x, f x = if p x then some (g x) else none) (l : List α) :
    l.filterMap f = (l.filter p).map g := by
  induction l with
  | nil => rfl
  | cons x xs ih =>
    cases hpx : p x <;>
      simp [List.filterMap_cons, List.filter_cons, h x, hpx, ih]

lemma score_lt_iff (o₁ n₁ o₂ n₂ : ℕ) (h₁ : 0 < n₁) (h₂ : 0 < n₂) :
    ((o₁ : ℝ) / Real.sqrt n₁ < (o₂ : ℝ) / Real.sqrt n₂) ↔ o₁ ^ 2 * n₂ < o₂ ^ 2 * n₁ := by
  have s₁ : (0 : ℝ) < Real.sqrt n₁ := Real.sqrt_pos.mpr (by exact_mod_cast h₁)
  have s₂ : (0 : ℝ) < Real.sqrt n₂ := Real.sqrt_pos.mpr (by exact_mod_cast h₂)
  have e₁ : Real.sqrt n₁ ^ 2 = (n₁ : ℝ) := Real.sq_sqrt (by positivity)
  have e₂ : Real.sqrt n₂ ^ 2 = (n₂ : ℝ) := Real.sq_sqrt (by positivity)
  rw [div_lt_div_iff₀ s₁ s₂]
  constructor
  · intro h
    have h2 : ((o₁ : ℝ) * Real.sqrt n₂) ^ 2 < ((o₂ : ℝ) * Real.sqrt n₁) ^ 2 :=
      pow_lt_pow_left₀ h (by positivity) (by norm_num)
    rw [mul_pow, mul_pow, e₁, e₂] at h2
    exact_mod_cast h2
  · intro h
    have h2 : ((o₁ : ℝ) ^ 2 * n₂) < ((o₂ : ℝ) ^ 2 * n₁) := by exact_mod_cast h
    have h3 : ((o₁ : ℝ) * Real.sqrt n₂) ^ 2 < ((o₂ : ℝ) * Real.sqrt n₁) ^ 2 := by
      rw [mul_pow, mul_pow, e₁, e₂]; exact h2
    exact lt_of_pow_lt_pow_left₀ 2 (by positivity) h3

lemma score_eq_iff (o₁ n₁ o₂ n₂ : ℕ) (h₁ : 0 < n₁) (h₂ : 0 < n₂) :
    ((o₁ : ℝ) / Real.sqrt n₁ = (o₂ : ℝ) / Real.sqrt n₂) ↔ o₁ ^ 2 * n₂ = o₂ ^ 2 * n₁ := by
  have s₁ : (0 : ℝ) < Real.sqrt n₁ := Real.sqrt_pos.mpr (by exact_mod_cast h₁)
  have s₂ : (0 : ℝ) < Real.sqrt n₂ := Real.sqrt_pos.mpr (by exact_mod_cast h₂)
  have e₁ : Real.sqrt n₁ ^ 2 = (n₁ : ℝ) := Real.sq_sqrt (by positivity)
  have e₂ : Real.sqrt n₂ ^ 2 = (n₂ : ℝ) := Real.sq_sqrt (by positivity)
  rw [div_eq_div_iff s₁.ne' s₂.ne']
  constructor
  · intro h
    have h2 : ((o₁ : ℝ) * Real.sqrt n₂) ^ 2 = ((o₂ : ℝ) * Real.sqrt n₁) ^ 2 := by rw [h]
    rw [mul_pow, mul_pow, e₁, e₂] at h2
    exact_mod_cast h2
  · intro h
    have h2 : ((o₁ : ℝ) * Real.sqrt n₂) ^ 2 = ((o₂ : ℝ) * Real.sqrt n₁) ^ 2 := by
      rw [mul_pow, mul_pow, e₁, e₂]; exact_mod_cast h
    have h3 := (sq_eq_sq_iff_abs_eq_abs _ _).mp h2
    rwa [abs_of_nonneg (by positivity), abs_of_nonneg (by positivity)] at h3

lemma scoredLE_iff_real (a b : ScoredDoc) (ha : 0 < a.ntokens) (hb : 0 < b.ntokens) :
    scoredLE a b = true ↔
      ((b.overlap : ℝ) / Real.sqrt b.ntokens < (a.overlap : ℝ) / Real.sqrt a.ntokens
        ∨ ((a.overlap : ℝ) / Real.sqrt a.ntokens = (b.overlap : ℝ) / Real.sqrt b.ntokens
            ∧ a.idx ≤ b.idx)) := by
  unfold scoredLE
  rw [score_lt_iff b.overlap b.ntokens a.overlap a.ntokens hb ha,
    score_eq_iff a.overlap a.ntokens b.overlap b.ntokens ha hb]
  simp

lemma scoredLE_total (a b : ScoredDoc) : scoredLE a b = true ∨ scoredLE b a = true := by
  unfold scoredLE
  simp only [Bool.or_eq_true, Bool.and_eq_true, decide_eq_true_eq]
  rcases lt_trichotomy (b.overlap ^ 2 * a.ntokens) (a.overlap ^ 2 * b.ntokens) with h | h | h
  · exact Or.inl (Or.inl h)
  · rcases le_total a.idx b.idx with hi | hi
    · exact Or.inl (Or.inr ⟨h.symm, hi⟩)
    · exact Or.inr (Or.inr ⟨h, hi⟩)
  · exact Or.inr (Or.inl h)

lemma scoredLE_trans (a b c : ScoredDoc) (ha : 0 < a.ntokens) (hb : 0 < b.ntokens)
    (hc : 0 < c.ntokens) (hab : scoredLE a b = true) (hbc : scoredLE b c = true) :
    scoredLE a c = true := by
  rw [scoredLE_iff_real a b ha hb] at hab
  rw [scoredLE_iff_real b c hb hc] at hbc
  rw [scoredLE_iff_real a c ha hc]
  rcases hab with h1 | ⟨e1, i1⟩
  · rcases hbc with h2 | ⟨e2, i2⟩
    · exact Or.inl (h2.trans h1)
    · exact Or.inl (e2 ▸ h1)
  · rcases hbc with h2 | ⟨e2, i2⟩
    · exact Or.inl (by rw [e1]; exact h2)
    · exact Or.inr ⟨e1.trans e2, i1.trans i2⟩

lemma insertLE_perm {α : Type} (le : α → α → Bool) (x : α) (l : List α) :
    (insertLE le x l).Perm (x :: l) := by
  induction l with
  | nil => exact List.Perm.refl _
  | cons y ys ih =>
    rw [insertLE]
    cases hxy : le x y
    · simp only [Bool.false_eq_true, if_false]
      exact (ih.cons y).trans (List.Perm.swap x y ys)
    · simp only [if_true]
      exact List.Perm.refl _

lemma sortLE_perm {α : Type} (le : α → α → Bool) (l : List α) : (sortLE le l).Perm l := by
  induction l with
  | nil => exact List.Perm.refl _
  | cons x xs ih =>
    rw [sortLE]
    exact (insertLE_perm le x (sortLE le xs)).trans (ih.cons x)

lemma pairwise_insertLE {α : Type} (le : α → α → Bool) (x : α) (l : List α)
    (hl : l.Pairwise (fun a b => le a b = true))
    (htot : ∀ b ∈ l, le x b = true ∨ le b x = true)
    (htrans : ∀ b ∈ l, ∀ c ∈ l, le x b = true → le b c = true → le x c = true) :
    (insertLE le x l).Pairwise (fun a b => le a b = true) := by
  induction l with
  | nil => simp [insertLE]
  | cons y ys ih =>
    rw [insertLE]
    rcases List.pairwise_cons.mp hl with ⟨hy, hys⟩
    cases hxy : le x y
    · simp only [Bool.false_eq_true, if_false]
      refine List.pairwise_cons.mpr ⟨?_, ?_⟩
      · intro b hb
        have hb' : b = x ∨ b ∈ ys := by
          have := (insertLE_perm le x ys).mem_iff.mp hb
          simpa using this
        rcases hb' with rfl | hb'
        · rcases htot y (List.mem_cons_self y ys) with h | h
          · exact absurd h (by simp [hxy])
          · exact h
        · exact hy b hb'
      · exact ih hys (fun b hb => htot b (List.mem_cons_of_mem y hb))
          (fun b hb c hc => htrans b (List.mem_cons_of_mem y hb) c (List.mem_cons_of_mem y hc))
    · simp only [if_true]
      refine List.pairwise_cons.mpr ⟨?_, hl⟩
      intro b hb
      rcases List.mem_cons.mp hb with rfl | hb'
      · exact hxy
      · exact htrans y (List.mem_cons_self y ys) b (List.mem_cons_of_mem y hb') hxy (hy b hb')

lemma pairwise_sortLE {α : Type} (le : α → α → Bool) (l : List α)
    (htot : ∀ a ∈ l, ∀ b ∈ l, le a b = true ∨ le b a = true)
    (htrans : ∀ a ∈ l, ∀ b ∈ l, ∀ c ∈ l, le a b = true → le b c = true → le a c = true) :
    (sortLE le l).Pairwise (fun a b => le a b = true) := by
  induction l with
  | nil => simp [sortLE]
  | cons x xs ih =>
    rw [sortLE]
    have hmem : ∀ b ∈ sortLE le xs, b ∈ xs := fun b hb => (sortLE_perm le xs).mem_iff.mp hb
    refine pairwise_insertLE le x (sortLE le xs) ?_ ?_ ?_
    · exact ih (fun a ha b hb => htot a (List.mem_cons_of_mem x ha) b (List.mem_cons_of_mem x hb))
        (fun a ha b hb c hc => htrans a (List.mem_cons_of_mem x ha) b (List.mem_cons_of_mem x hb)
          c (List.mem_cons_of_mem x hc))
    · intro b hb
      exact htot x (List.mem_cons_self x xs) b (List.mem_cons_of_mem x (hmem b hb))
    · intro b hb c hc
      exact htrans x (List.mem_cons_self x xs) b (List.mem_cons_of_mem x (hmem b hb))
        c (List.mem_cons_of_mem x (hmem c hc))

lemma query_eq_lexicalQuerySpec (store : InMemoryVectorStore) (q : String) (k : Nat) :
    InMemoryVectorStore.query store q k = lexicalQuerySpec store q k := by
  unfold InMemoryVectorStore.query lexicalQuerySpec
  by_cases hq : q = ""
  · simp [hq]
  · simp only [hq, false_or, if_false, eq_self_iff_true]
    by_cases hd : store.documents = []
    · by_cases hqt : InMemoryVectorStore.tokenize q = ∅ <;> simp [hd, hqt, sortLE]
    · simp only [hd, if_false]
      by_cases hqt : InMemoryVectorStore.tokenize q = ∅
      · simp only [hqt, if_true]
        have hfil : store.documents.enum.filter
            (fun p => decide (((∅ : Finset String) ∩
              InMemoryVectorStore.tokenize (p.2.text.getD "")).Nonempty)) = [] := by
          apply List.filter_eq_nil_iff.mpr
          intro a _
          simp [Finset.empty_inter]
        rw [hfil]
        simp [sortLE]
      · simp only [hqt, if_false]
        have heq : store.documents.enum.filterMap
            (fun p =>
              let docTokens := InMemoryVectorStore.tokenize (p.2.text.getD "")
              if docTokens = ∅ then none
              else
                let overlap := (InMemoryVectorStore.tokenize q ∩ docTokens).card
                if overlap = 0 then none
                else some (ScoredDoc.mk overlap docTokens.card p.1 p.2)) =
            (store.documents.enum.filter
              (fun p => decide ((InMemoryVectorStore.tokenize q ∩
                InMemoryVectorStore.tokenize (p.2.text.getD "")).Nonempty))).map
            (fun p =>
              ScoredDoc.mk ((InMemoryVectorStore.tokenize q ∩
                  InMemoryVectorStore.tokenize (p.2.text.getD "")).card)
                (InMemoryVectorStore.tokenize (p.2.text.getD "")).card p.1 p.2) := by
          apply filterMap_eq_map_filter
          intro x
          by_cases hdt : InMemoryVectorStore.tokenize (x.2.text.getD "") = ∅
          · simp [hdt, Finset.inter_empty]
          · by_cases hcard : (InMemoryVectorStore.tokenize q ∩
                InMemoryVectorStore.tokenize (x.2.text.getD "")).card = 0
            · have hempty : (InMemoryVectorStore.tokenize q ∩
                  InMemoryVectorStore.tokenize (x.2.text.getD "")) = ∅ :=
                Finset.card_eq_zero.mp hcard
              simp [hdt, hcard, hempty]
            · have hne : (InMemoryVectorStore.tokenize q ∩
                  InMemoryVectorStore.tokenize (x.2.text.getD "")).Nonempty :=
                Finset.nonempty_iff_ne_empty.mpr (fun h => hcard (by rw [h]; rfl))
              simp [hdt, hcard, hne]
        rw [heq]

lemma query_pairwise_descending (store : InMemoryVectorStore) (q : String) (k : Nat) :
    (InMemoryVectorStore.query store q k).Pairwise
      (fun h₁ h₂ => (h₂.overlap : ℝ) / Real.sqrt h₂.ntokens ≤
        (h₁.overlap : ℝ) / Real.sqrt h₁.ntokens) := by
  unfold InMemoryVectorStore.query
  by_cases hq : q = ""
  · simp [hq]
  · simp only [hq, if_false]
    by_cases hqt : InMemoryVectorStore.tokenize q = ∅
    · simp [hqt]
    · simp only [hqt, if_false]
      rw [List.pairwise_map]
      set f : ℕ × StoreDoc → Option ScoredDoc := fun p =>
        let docTokens := InMemoryVectorStore.tokenize (p.2.text.getD "")
        if docTokens = ∅ then none
        else
          let overlap := (InMemoryVectorStore.tokenize q ∩ docTokens).card
          if overlap = 0 then none
          else some (ScoredDoc.mk overlap docTokens.card p.1 p.2) with hf
      have hpos : ∀ e ∈ store.documents.enum.filterMap f, 0 < e.ntokens := by
        intro e he
        obtain ⟨x, _, hfx⟩ := List.mem_filterMap.mp he
        rw [hf] at hfx
        simp only at hfx
        split_ifs at hfx with h1 h2
        obtain rfl := Option.some_injective _ hfx
        exact Finset.card_pos.mpr (Finset.nonempty_iff_ne_empty.mpr h1)
      have hposSort : ∀ e ∈ sortLE scoredLE (store.documents.enum.filterMap f),
          0 < e.ntokens := by
        intro e he
        exact hpos e ((sortLE_perm scoredLE _).mem_iff.mp he)
      have hsorted : (sortLE scoredLE (store.documents.enum.filterMap f)).Pairwise
          (fun a b => scoredLE a b = true) :=
        pairwise_sortLE scoredLE _ (fun a _ b _ => scoredLE_total a b)
          (fun a ha b hb c hc hab hbc =>
            scoredLE_trans a b c (hpos a ha) (hpos b hb) (hpos c hc) hab hbc)
      have hreal : (sortLE scoredLE (store.documents.enum.filterMap f)).Pairwise
          (fun a b => (b.overlap : ℝ) / Real.sqrt b.ntokens ≤
            (a.overlap : ℝ) / Real.sqrt a.ntokens) := by
        refine List.Pairwise.imp_of_mem ?_ hsorted
        intro a b ha hb hab
        have := (scoredLE_iff_real a b (hposSort a ha) (hposSort b hb)).mp hab
        rcases this with h | ⟨h, _⟩
        · exact le_of_lt h
        · exact h.ge
      exact List.Pairwise.sublist (List.take_sublist k _) hreal

/-! ## Concrete data for the witnesses and counterexamples -/

/-- The spec's worked example: first lexical document. -/
def demoDoc0 : StoreDoc := { text := some "eco friendly cotton jacket" }

/-- The spec's worked example: second lexical document. -/
def demoDoc1 : StoreDoc := { text := some "waterproof wool coat" }

/-- The spec's worked example store. -/
def demoStore : InMemoryVectorStore := { documents := [demoDoc0, demoDoc1] }

/-- A scored candidate with score `1 / sqrt 4`. -/
def demoScoredA : ScoredDoc := ⟨1, 4, 0, demoDoc0⟩

/-- A scored candidate with score `2 / sqrt 4`. -/
def demoScoredB : ScoredDoc := ⟨2, 4, 1, demoDoc1⟩

/-- C2: for every sequence of upserted documents and every query,
`InMemoryVectorStore.query` tokenizes query and documents into case-folded
alphanumeric token sets, keeps exactly the documents with non-empty overlap,
scores them as overlap over the square root of the document token count,
sorts descending by that score with ties in insertion order, and returns
the first `top_k`; empty queries and empty stores give the empty list.
Stated as: `query` equals the step-by-step specification
`lexicalQuerySpec`; the comparison driving both orders candidates exactly
by the real-valued score formula (descending, tie-break by insertion
index); the sort permutes its input; and the returned hits are in
descending real-score order. -/
theorem C2_inmemory_query_implements_spec :
    (∀ (store : InMemoryVectorStore) (q : String) (k : Nat),
        InMemoryVectorStore.query store q k = lexicalQuerySpec store q k)
    ∧ (∀ a b : ScoredDoc, 0 < a.ntokens → 0 < b.ntokens →
        (scoredLE a b = true ↔
          ((b.overlap : ℝ) / Real.sqrt b.ntokens < (a.overlap : ℝ) / Real.sqrt a.ntokens
            ∨ ((a.overlap : ℝ) / Real.sqrt a.ntokens = (b.overlap : ℝ) / Real.sqrt b.ntokens
                ∧ a.idx ≤ b.idx))))
    ∧ (∀ (l : List ScoredDoc), (sortLE scoredLE l).Perm l)
    ∧ (∀ (store : InMemoryVectorStore) (q : String) (k : Nat),
        (InMemoryVectorStore.query store q k).Pairwise
          (fun h₁ h₂ => (h₂.overlap : ℝ) / Real.sqrt h₂.ntokens ≤
            (h₁.overlap : ℝ) / Real.sqrt h₁.ntokens)) :=
  ⟨query_eq_lexicalQuerySpec, scoredLE_iff_real, fun l => sortLE_perm scoredLE l,
    query_pairwise_descending⟩

/-- Witness for C2 at the spec's worked example: the query "cotton jacket"
over the two-document store returns the first document with overlap 2 out
of 4 document tokens, and the comparison agrees with the real score order
at a concrete pair. -/
theorem C2_witness :
    InMemoryVectorStore.query demoStore "cotton jacket" 1 =
      [{ id := "inmemory-0", overlap := 2, ntokens := 4, payload := demoDoc0 }]
    ∧ (scoredLE demoScoredA demoScoredB = true ↔
        ((demoScoredB.overlap : ℝ) / Real.sqrt demoScoredB.ntokens <
            (demoScoredA.overlap : ℝ) / Real.sqrt demoScoredA.ntokens
          ∨ ((demoScoredA.overlap : ℝ) / Real.sqrt demoScoredA.ntokens =
              (demoScoredB.overlap : ℝ) / Real.sqrt demoScoredB.ntokens
              ∧ demoScoredA.idx ≤ demoScoredB.idx))) := by
  constructor
  · rw [C2_inmemory_query_implements_spec.1 demoStore "cotton jacket" 1]
    decide
  · exact C2_inmemory_query_implements_spec.2.1 demoScoredA demoScoredB (by decide) (by decide)

/-! ## Supporting lemmas for the catalog -/

lemma condFilter {α : Type} (c : Bool) (p : α → Bool) (l : List α) :
    (if c then l.filter p else l) = l.filter (fun a => !c || p a) := by
  cases c <;> simp

lemma getAux_eq_find (pidLower : String) (l : List Product) :
    ProductCatalog.getAux pidLower l = l.find? (fun p => lowerStr p.product_id == pidLower) := by
  induction l with
  | nil => rfl
  | cons p ps ih =>
    rw [ProductCatalog.getAux, List.find?]
    cases hp : (lowerStr p.product_id == pidLower) <;> simp [hp, ih]

/-- C10: every catalog lookup ignores case: `get` returns the first (and in
a well-formed catalog only) product whose stored id equals the argument
after case folding, `none` when there is none; `search` keeps, in catalog
order, exactly the products whose stored values match every provided
non-empty `brand`, `category`, `tag` and `size` filter value after case
folding (equality for brand and category, membership for tags and
sizes). -/
theorem C10_catalog_case_insensitive :
    (∀ (cat : ProductCatalog) (pid : String),
        ProductCatalog.get cat pid =
          cat.products.find? (fun p => lowerStr p.product_id == lowerStr pid))
    ∧ (∀ (cat : ProductCatalog) (brand category tag size : Option String),
        ProductCatalog.search cat brand category tag size none =
          cat.products.filter (fun p =>
            (!pyTruthy brand || (lowerStr p.brand == lowerStr (strVal brand)))
            && (!pyTruthy category || (lowerStr p.category == lowerStr (strVal category)))
            && (!pyTruthy tag || p.tags.any (fun t => lowerStr t == lowerStr (strVal tag)))
            && (!pyTruthy size || p.sizes.any (fun s => lowerStr s == lowerStr (strVal size))))) := by
  constructor
  · intro cat pid
    exact getAux_eq_find (lowerStr pid) cat.products
  · intro cat brand category tag size
    unfold ProductCatalog.search
    simp only [condFilter]
    simp only [List.filter_filter]
    rw [show pyTruthy (none : Option String) = false from rfl]
    apply List.filter_congr
    intro x _
    simp only [Bool.not_false, Bool.true_or, Bool.true_and]
    cases h1 : pyTruthy brand <;> cases h2 : pyTruthy category <;>
      cases h3 : pyTruthy tag <;> cases h4 : pyTruthy size <;>
        simp [Bool.and_comm, Bool.and_left_comm, Bool.and_assoc]

/-! ## Concrete catalog data for witnesses and counterexamples -/

/-- A one-product demo catalog entry. -/
def demoProduct : Product :=
  { product_id := "P1", name := "Organic Tee", brand := "EcoWear", category := "Tops",
    materials := "organic cotton", description := "A soft tee", care := "machine wash cold",
    price := 30, sizes := ["M", "L"], tags := ["eco"] }

/-- A catalog holding only `demoProduct`. -/
def demoCatalog : ProductCatalog := ⟨[demoProduct]⟩

/-- A free-text lookup that returns the whole catalog for any question. -/
def demoLookup : ProductCatalog → String → List Product := fun cat _ => cat.products

/-- Filters with the single non-empty value `brand = "Nike"`. -/
def demoNikeFilters : ProductFilters := { brand := some "Nike" }

/-- C1 counterexample: with the non-empty filter value `brand = "Nike"`
(so, by the claim, only the exact-match filter search may run), the filter
search finds nothing and the free-text lookup runs anyway, populating the
result — so which lookup runs is not determined solely by whether a filter
value is non-empty. -/
theorem C1_counterexample :
    ProductFilters.hasTruthy demoNikeFilters = true
    ∧ (RAGPipeline.build_product_context (some demoCatalog) demoLookup
        "any question" (some demoNikeFilters)).usedTextLookup = true
    ∧ (RAGPipeline.build_product_context (some demoCatalog) demoLookup
        "any question" (some demoNikeFilters)).items = [productContextItem demoProduct] := by
  refine ⟨rfl, rfl, ?_⟩
  decide

/-- C1 (amended): the catalog step searches by exact-match filters exactly
when `product_filters` has a non-empty value, and runs the free-text lookup
keyed on the raw question exactly when there is no non-empty filter value
or the filter search returned no matches; the emitted items come from the
free-text lookup in that case and from the filter search otherwise. -/
theorem C1_lookup_selection (cat : ProductCatalog)
    (lookup : ProductCatalog → String → List Product)
    (q : String) (pf : Option ProductFilters) :
    (RAGPipeline.build_product_context (some cat) lookup q pf).usedFilterSearch
        = (pf.getD {}).hasTruthy
    ∧ (RAGPipeline.build_product_context (some cat) lookup q pf).usedTextLookup
        = (!(pf.getD {}).hasTruthy
            || (cat.search (keepTruthy (pf.getD {}).brand) (keepTruthy (pf.getD {}).category)
                (keepTruthy (pf.getD {}).tag) (keepTruthy (pf.getD {}).size) none).isEmpty)
    ∧ (RAGPipeline.build_product_context (some cat) lookup q pf).items
        = ((if (RAGPipeline.build_product_context (some cat) lookup q pf).usedTextLookup
              then lookup cat q
              else cat.search (keepTruthy (pf.getD {}).brand) (keepTruthy (pf.getD {}).category)
                (keepTruthy (pf.getD {}).tag) (keepTruthy (pf.getD {}).size) none).take 3).map
            productContextItem := by
  unfold RAGPipeline.build_product_context
  by_cases hfs : (pf.getD {}).hasTruthy
  · by_cases hse : (cat.search (keepTruthy (pf.getD {}).brand) (keepTruthy (pf.getD {}).category)
        (keepTruthy (pf.getD {}).tag) (keepTruthy (pf.getD {}).size) none).isEmpty
    · simp [hfs, hse]
    · simp [hfs, hse]
  · simp [hfs]

/-- C3: `retrieve` returns the formatted vector-store hits (all of type
"document", in retrieval rank order) followed by the product-context items
(all of type "product"), and the product-context items never number more
than 3. -/
theorem C3_fusion_order (storeQuery : String → Nat → List RetrievalPayload)
    (catalog : Option ProductCatalog) (lookup : ProductCatalog → String → List Product)
    (q : String) (k : Nat) (pf : Option ProductFilters) :
    RAGPipeline.retrieve storeQuery catalog lookup q k pf
        = (storeQuery q k).map formatDocumentPayload
          ++ (RAGPipeline.build_product_context catalog lookup q pf).items
    ∧ ((storeQuery q k).map formatDocumentPayload).all (fun x => x.type == "document") = true
    ∧ ((RAGPipeline.build_product_context catalog lookup q pf).items).all
        (fun x => x.type == "product") = true
    ∧ ((RAGPipeline.build_product_context catalog lookup q pf).items).length ≤ 3 := by
  refine ⟨rfl, ?_, ?_, ?_⟩
  · simp [List.all_eq_true, formatDocumentPayload]
  · cases catalog with
    | none => rfl
    | some cat =>
      simp only [RAGPipeline.build_product_context, List.all_eq_true]
      intro x hx
      obtain ⟨p, _, rfl⟩ := List.mem_map.mp hx
      rfl
  · cases catalog with
    | none => simp [RAGPipeline.build_product_context]
    | some cat =>
      simp only [RAGPipeline.build_product_context, List.length_map, List.length_take]
      exact inf_le_left

/-- C4: with no language-model backend or credentials (the langchain import
failed, or the API key is unset or empty), `generate_answer` is a pure
function of the context alone — the LLM callable and the question are never
consulted, so no network call happens and nothing is raised — and it
returns either the sentinel answer or the extractive fallback: the fixed
preamble followed by the raw text of the first two non-empty snippets
joined by a blank line. -/
theorem C4_fallback_monotonicity (avail : Bool) (key : Option String)
    (llm1 llm2 : String → String → String) (q1 q2 : String) (ctx : List ContextItem)
    (h : avail = false ∨ pyTruthy key = false) :
    RAGPipeline.generate_answer avail key llm1 q1 ctx
        = RAGPipeline.generate_answer avail key llm2 q2 ctx
    ∧ (RAGPipeline.generate_answer avail key llm1 q1 ctx = RAGPipeline.sentinelAnswer
        ∨ RAGPipeline.generate_answer avail key llm1 q1 ctx
            = RAGPipeline.fallbackPreamble ++ String.intercalate "\n\n"
                (((ctx.filter (fun i => i.text != "")).map (fun i => i.text)).take 2)) := by
  have hcond : (!avail || !pyTruthy key) = true := by
    rcases h with h | h <;> simp [h]
  constructor
  · unfold RAGPipeline.generate_answer
    by_cases hct : RAGPipeline.render_prompt_context ctx = "" <;> simp [hct, hcond]
  · unfold RAGPipeline.generate_answer
    by_cases hct : RAGPipeline.render_prompt_context ctx = ""
    · simp [hct]
    · simp only [hct, if_false, hcond, if_true, Bool.true_eq_false]
      unfold RAGPipeline.fallback_answer
      by_cases hsn : ((ctx.filter (fun i => i.text != "")).map (fun i => i.text)).isEmpty
      · simp [hsn]
      · simp [hsn]

/-- A document item with a title and non-empty text. -/
def demoCtxA : ContextItem := { type := "document", title := some "Care FAQ", text := "Wash cold." }

/-- A document item with empty text (skipped by rendering). -/
def demoCtxB : ContextItem := { type := "document", text := "" }

/-- A product item with non-empty text. -/
def demoCtxC : ContextItem := { type := "product", text := "Brand: EcoWear" }

/-- Witness for C4 at a concrete unconfigured pipeline and a concrete
three-item context. -/
theorem C4_witness :
    RAGPipeline.generate_answer false none (fun _ _ => "llm-one") "q1"
        [demoCtxA, demoCtxB, demoCtxC]
      = RAGPipeline.generate_answer false none (fun _ _ => "llm-two") "q2"
        [demoCtxA, demoCtxB, demoCtxC]
    ∧ (RAGPipeline.generate_answer false none (fun _ _ => "llm-one") "q1"
          [demoCtxA, demoCtxB, demoCtxC] = RAGPipeline.sentinelAnswer
      ∨ RAGPipeline.generate_answer false none (fun _ _ => "llm-one") "q1"
          [demoCtxA, demoCtxB, demoCtxC]
        = RAGPipeline.fallbackPreamble ++ String.intercalate "\n\n"
            ((([demoCtxA, demoCtxB, demoCtxC].filter (fun i => i.text != "")).map
              (fun i => i.text)).take 2)) :=
  C4_fallback_monotonicity false none (fun _ _ => "llm-one") (fun _ _ => "llm-two") "q1" "q2"
    [demoCtxA, demoCtxB, demoCtxC] (Or.inl rfl)

/-- The segment list of the renderer is the map over the non-empty-text
items. -/
lemma renderSegments_eq (ctx : List ContextItem) :
    renderSegments ctx = (ctx.filter (fun i => i.text != "")).map
      (fun i => titleOrType i ++ ":\n" ++ i.text) := by
  induction ctx with
  | nil => rfl
  | cons item rest ih =>
    rw [renderSegments, List.filter_cons]
    by_cases ht : item.text = ""
    · simp [ht, ih]
    · simp [ht, ih]

/-- C5: the rendered prompt context is exactly the blank-line-joined
title-or-type blocks of the items with non-empty text (empty-text items
skipped entirely), and whenever it is empty, `generate_answer` returns the
sentinel no matter how the LLM is configured. -/
theorem C5_render_prompt_context (ctx : List ContextItem) :
    RAGPipeline.render_prompt_context ctx
        = String.intercalate "\n\n" ((ctx.filter (fun i => i.text != "")).map
            (fun i => titleOrType i ++ ":\n" ++ i.text))
    ∧ ∀ (avail : Bool) (key : Option String) (llm : String → String → String) (q : String),
        RAGPipeline.render_prompt_context ctx = "" →
        RAGPipeline.generate_answer avail key llm q ctx = RAGPipeline.sentinelAnswer := by
  constructor
  · unfold RAGPipeline.render_prompt_context
    rw [renderSegments_eq]
  · intro avail key llm q h
    unfold RAGPipeline.generate_answer
    simp [h]

/-- Witness for C5 at a context whose only item has empty text, with a
fully configured LLM. -/
theorem C5_witness :
    RAGPipeline.render_prompt_context [demoCtxB]
        = String.intercalate "\n\n" (([demoCtxB].filter (fun i => i.text != "")).map
            (fun i => titleOrType i ++ ":\n" ++ i.text))
    ∧ RAGPipeline.generate_answer true (some "sk-test") (fun _ _ => "llm") "q" [demoCtxB]
        = RAGPipeline.sentinelAnswer :=
  ⟨(C5_render_prompt_context [demoCtxB]).1,
    (C5_render_prompt_context [demoCtxB]).2 true (some "sk-test") (fun _ _ => "llm") "q"
      (by decide)⟩

/-! ## Supporting lemmas for tracing -/

lemma hexCharsLE_length (w : Nat) : ∀ n, (hexCharsLE w n).length = w := by
  induction w with
  | zero => intro n; rfl
  | succ w ih => intro n; simp [hexCharsLE, ih]

lemma hexDigitChar_isHex : ∀ m, m < 16 →
    ((hexDigitChar m).isDigit || (decide (97 ≤ (hexDigitChar m).toNat)
      && decide ((hexDigitChar m).toNat ≤ 102))) = true := by decide

lemma mem_hexCharsLE_isHex (w : Nat) : ∀ n c, c ∈ hexCharsLE w n →
    (c.isDigit || (decide (97 ≤ c.toNat) && decide (c.toNat ≤ 102))) = true := by
  induction w with
  | zero => intro n c hc; simp [hexCharsLE] at hc
  | succ w ih =>
    intro n c hc
    rw [hexCharsLE] at hc
    rcases List.mem_cons.mp hc with rfl | hc'
    · exact hexDigitChar_isHex (n % 16) (Nat.mod_lt n (by norm_num))
    · exact ih (n / 16) c hc'

/-- C6: within one `trace_run` scope, a nested `span` that receives no
explicit trace-id attribute observes exactly the trace id returned in the
final `TraceHandle` (whether or not a backend is active), and with no
backend the id is the locally generated random value rendered as 32
lowercase hexadecimal digits (128 bits). -/
theorem C6_trace_continuity (tracer : Option BackendSpanContext) (uiBase : Option String)
    (rand : Nat) :
    spanObservedTraceId none (trace_run tracer uiBase rand).ambient_trace_id
        = (trace_run tracer uiBase rand).handle.trace_id
    ∧ (tracer = none →
        (trace_run tracer uiBase rand).handle.trace_id = some (uuid4Hex rand)
        ∧ (uuid4Hex rand).length = 32
        ∧ (uuid4Hex rand).data.all
            (fun c => c.isDigit || (decide (97 ≤ c.toNat) && decide (c.toNat ≤ 102))) = true) := by
  constructor
  · cases tracer <;> rfl
  · rintro rfl
    refine ⟨rfl, ?_, ?_⟩
    · show (toPaddedHex 32 (rand % 2 ^ 128)).length = 32
      simp [toPaddedHex, String.length, hexCharsLE_length]
    · rw [List.all_eq_true]
      intro c hc
      have hc' : c ∈ hexCharsLE 32 (rand % 2 ^ 128) := by
        have hdata : (uuid4Hex rand).data = (hexCharsLE 32 (rand % 2 ^ 128)).reverse := rfl
        rw [hdata] at hc
        exact List.mem_reverse.mp hc
      exact mem_hexCharsLE_isHex 32 _ c hc'

/-- Witness for C6 with no backend and the concrete random value 0. -/
theorem C6_witness :
    spanObservedTraceId none (trace_run none none 0).ambient_trace_id
        = (trace_run none none 0).handle.trace_id
    ∧ ((trace_run none none 0).handle.trace_id = some (uuid4Hex 0)
        ∧ (uuid4Hex 0).length = 32
        ∧ (uuid4Hex 0).data.all
            (fun c => c.isDigit || (decide (97 ≤ c.toNat) && decide (c.toNat ≤ 102))) = true) :=
  ⟨(C6_trace_continuity none none 0).1, (C6_trace_continuity none none 0).2 rfl⟩

/-- C7 counterexample: with the client library installed and the connection
call failing at construction time, the failure is not converted to
`VectorStoreNotAvailable`: it propagates out of the pipeline constructor,
which therefore does not fall back to the in-memory store. -/
theorem C7_counterexample :
    RAGPipeline.init_vector_store true (ConnectOutcome.failure "connection refused")
        = Except.error (PyError.raised "connection refused")
    ∧ RAGPipeline.init_vector_store true (ConnectOutcome.failure "connection refused")
        ≠ Except.ok PipelineStore.inMemory := by
  refine ⟨rfl, ?_⟩
  intro h
  simp [RAGPipeline.init_vector_store, WeaviateVectorStore.init] at h

/-- C7 (amended): of the construction-time failure modes, only the
missing-client-library case is signalled as `VectorStoreNotAvailable`, and
only it makes the pipeline constructor fall back to the in-memory store; a
connection failure at construction propagates unconverted out of the
constructor, and schema provisioning does not run at construction at all —
its failure surfaces, also unconverted, at the first upsert. -/
theorem C7_constructor_fallback (connect : ConnectOutcome) (msg ensureMsg : String) (n : Nat) :
    RAGPipeline.init_vector_store false connect = Except.ok PipelineStore.inMemory
    ∧ WeaviateVectorStore.init false connect
        = Except.error (PyError.vectorStoreNotAvailable
            "weaviate-client is not installed; install it to use the vector store")
    ∧ RAGPipeline.init_vector_store true ConnectOutcome.connected
        = Except.ok PipelineStore.weaviate
    ∧ RAGPipeline.init_vector_store true (ConnectOutcome.failure msg)
        = Except.error (PyError.raised msg)
    ∧ WeaviateVectorStore.upsert_remote (Except.error ensureMsg) n
        = Except.error (PyError.raised ensureMsg) :=
  ⟨rfl, rfl, rfl, rfl, rfl⟩

/-- C8: tracer initialization is at-most-once per process.  From the
process's initial state the first call marks the attempt; and whatever
state a call of `initTracer` produced, every later call (directly, or
through `is_enabled`, `span` or `trace_run`, which all enter through
`initTracer`) returns that state unchanged and never reaches backend
registration again, for any environment — including after an
"unavailable" outcome. -/
theorem C8_initialize_at_most_once (s : TracerState) (env env2 : InitEnv) :
    (initTracer { tracer := none, ui_base := none, attempted := false } env).1.attempted = true
    ∧ initTracer (initTracer s env).1 env2 = ((initTracer s env).1, false)
    ∧ is_enabled (initTracer s env).1 env2
        = ((initTracer s env).1.tracer.isSome, ((initTracer s env).1, false)) := by
  have hguard : ∀ (t : TracerState) (e : InitEnv), (t.tracer.isSome || t.attempted) = true →
      initTracer t e = (t, false) := by
    intro t e ht
    unfold initTracer
    simp [ht]
  have hatt : ∀ (t : TracerState) (e : InitEnv), ¬(t.tracer.isSome || t.attempted) = true →
      (initTracer t e).1.attempted = true := by
    intro t e ht
    unfold initTracer
    simp only [ht, Bool.false_eq_true, if_false]
    split
    · rfl
    · split
      · rfl
      · split
        · rfl
        · split <;> rfl
  have key : initTracer (initTracer s env).1 env2 = ((initTracer s env).1, false) := by
    by_cases hg : (s.tracer.isSome || s.attempted) = true
    · rw [hguard s env hg]
      exact hguard s env2 hg
    · apply hguard
      simp [hatt s env hg]
  refine ⟨?_, key, ?_⟩
  · exact hatt { tracer := none, ui_base := none, attempted := false } env (by simp)
  · unfold is_enabled
    rw [key]

/-! ## Supporting lemmas for the chunker -/

lemma dictGet_dictSet_self (d : PyDict) (k : String) (v : Val) :
    dictGet (dictSet d k v) k = some v := by
  induction d with
  | nil => simp [dictSet, dictGet]
  | cons kv rest ih =>
    obtain ⟨k1, v1⟩ := kv
    rw [dictSet]
    by_cases hk : k1 = k
    · simp [hk, dictGet]
    · simp [hk, dictGet, ih]

lemma dictGet_dictSet_ne (d : PyDict) (k : String) (v : Val) (k' : String) (h : k' ≠ k) :
    dictGet (dictSet d k v) k' = dictGet d k' := by
  induction d with
  | nil =>
    simp only [dictSet, dictGet]
    rw [if_neg (Ne.symm h)]
  | cons kv rest ih =>
    obtain ⟨k1, v1⟩ := kv
    rw [dictSet]
    by_cases hk : k1 = k
    · rw [if_pos hk]
      simp only [dictGet]
      rw [if_neg (fun hh : k1 = k' => h (hh ▸ hk)), if_neg (fun hh : k1 = k' => h (hh ▸ hk))]
    · rw [if_neg hk]
      simp only [dictGet]
      by_cases hk' : k1 = k'
      · rw [if_pos hk', if_pos hk']
      · rw [if_neg hk', if_neg hk', ih]

lemma dictGet_dictRemove_ne (d : PyDict) (k k' : String) (h : k' ≠ k) :
    dictGet (dictRemove d k) k' = dictGet d k' := by
  induction d with
  | nil => rfl
  | cons kv rest ih =>
    obtain ⟨k1, v1⟩ := kv
    rw [dictRemove, List.filter_cons]
    by_cases hk : k1 = k
    · have hb : ((k1, v1).1 != k) = false := by simp [hk]
      rw [hb]
      simp only [Bool.false_eq_true, if_false]
      rw [show List.filter (fun kv => kv.1 != k) rest = dictRemove rest k from rfl, ih]
      simp only [dictGet]
      rw [if_neg (fun hh : k1 = k' => h (hh ▸ hk))]
    · have hb : ((k1, v1).1 != k) = true := by simp [hk]
      rw [hb]
      simp only [if_true, dictGet]
      by_cases hk' : k1 = k'
      · rw [if_pos hk', if_pos hk']
      · rw [if_neg hk', if_neg hk',
          show List.filter (fun kv => kv.1 != k) rest = dictRemove rest k from rfl, ih]

/-- A splitter that returns the whole text as a single segment (the
external splitter's behaviour on short inputs). -/
def demoSplit : String → List String := fun s => [s]

/-- A record with a text field and two metadata fields. -/
def demoRecord : PyDict :=
  [("text", Val.str "hello world"), ("doc_id", Val.str "d1"), ("source", Val.str "faq")]

/-- C9 counterexample: `Chunker.transform` stores the segment position
under the key `chunk_index`, not `section_index` — on a concrete record
the emitted chunk carries `chunk_index = 0` and has no `section_index`
entry at all (that key is used by `RAGPipeline.ingest`, not by the ETL
chunker). -/
theorem C9_counterexample :
    Chunker.transform demoSplit [demoRecord] =
      [[("doc_id", Val.str "d1"), ("source", Val.str "faq"),
        ("text", Val.str "hello world"), ("chunk_index", Val.nat 0)]]
    ∧ dictGet [("doc_id", Val.str "d1"), ("source", Val.str "faq"),
        ("text", Val.str "hello world"), ("chunk_index", Val.nat 0)] "section_index" = none := by
  refine ⟨?_, rfl⟩
  decide

/-- C9 (amended): `Chunker.transform` emits, per record, one chunk record
for each split segment; each carries `chunk_index` equal to the segment's
0-based position and `text` equal to the segment, and preserves every field
of the source record other than `text` and `chunk_index` (a pre-existing
`chunk_index` field is overwritten by the position). -/
theorem C9_transform_chunk_records (split : String → List String) (records : List PyDict)
    (r : PyDict) :
    Chunker.transform split (r :: records)
        = Chunker.transform split [r] ++ Chunker.transform split records
    ∧ (Chunker.transform split [r]).length = (split (getTextVal r)).length
    ∧ ∀ (i : Nat) (o : PyDict), (Chunker.transform split [r]).get? i = some o →
        dictGet o "chunk_index" = some (Val.nat i)
        ∧ (∀ chunk, (split (getTextVal r)).get? i = some chunk →
            dictGet o "text" = some (Val.str chunk))
        ∧ ∀ k, k ≠ "text" → k ≠ "chunk_index" → dictGet o k = dictGet r k := by
  refine ⟨?_, ?_, ?_⟩
  · simp [Chunker.transform]
  · simp [Chunker.transform, List.enum_length]
  · intro i o ho
    have ho' : ((split (getTextVal r)).enum.map (fun p =>
        dictSet (dictSet (dictRemove r "text") "text" (Val.str p.2))
          "chunk_index" (Val.nat p.1))).get? i = some o := by
      simpa [Chunker.transform] using ho
    rw [List.get?_eq_getElem?, List.getElem?_map, ← List.get?_eq_getElem?] at ho'
    have henum : (split (getTextVal r)).enum.get? i
        = Option.map (fun a => (i, a)) ((split (getTextVal r)).get? i) := by
      rw [List.get?_eq_getElem?, List.getElem?_enum, List.get?_eq_getElem?]
    rw [henum] at ho'
    cases hch : (split (getTextVal r)).get? i with
    | none => rw [hch] at ho'; simp at ho'
    | some chunk =>
      rw [hch] at ho'
      simp only [Option.map_some'] at ho'
      replace ho' := Option.some_injective _ ho'
      obtain rfl := ho'
      refine ⟨?_, ?_, ?_⟩
      · exact dictGet_dictSet_self _ _ _
      · intro chunk' hch'
        have : chunk' = chunk := (Option.some_injective _ hch').symm
        subst this
        rw [dictGet_dictSet_ne _ _ _ _ (by decide : ("text" : String) ≠ "chunk_index")]
        exact dictGet_dictSet_self _ _ _
      · intro k hk1 hk2
        rw [dictGet_dictSet_ne _ _ _ _ hk2, dictGet_dictSet_ne _ _ _ _ hk1,
          dictGet_dictRemove_ne _ _ _ hk1]

/-- Witness for C9 (amended) at the concrete record and splitter of the
counterexample: position 0 carries `chunk_index = 0`, the segment text, and
the preserved `doc_id` field. -/
theorem C9_witness :
    dictGet [("doc_id", Val.str "d1"), ("source", Val.str "faq"),
        ("text", Val.str "hello world"), ("chunk_index", Val.nat 0)] "chunk_index"
      = some (Val.nat 0)
    ∧ dictGet [("doc_id", Val.str "d1"), ("source", Val.str "faq"),
        ("text", Val.str "hello world"), ("chunk_index", Val.nat 0)] "text"
      = some (Val.str "hello world")
    ∧ dictGet [("doc_id", Val.str "d1"), ("source", Val.str "faq"),
        ("text", Val.str "hello world"), ("chunk_index", Val.nat 0)] "doc_id"
      = dictGet demoRecord "doc_id" := by
  have h := (C9_transform_chunk_records demoSplit [] demoRecord).2.2 0
    [("doc_id", Val.str "d1"), ("source", Val.str "faq"),
      ("text", Val.str "hello world"), ("chunk_index", Val.nat 0)] (by decide)
  exact ⟨h.1, h.2.1 "hello world" (by decide),
    h.2.2 "doc_id" (by decide) (by decide)⟩
